import Mathlib

/-!
Shallow embedding of the fk33_hbm2_test gateware sources (debug.py, fk33.py,
axil2axi.py, wb2axi.py).  Combinational blocks become pure functions from
current signals to driven signals; synchronous blocks become explicit
next-state functions evaluated once per clock cycle.  Machine integers are
natural numbers with explicit `% 2 ^ w` where a signal's width makes wraparound
observable.
-/

/-- Error sentinel constant `ERROR_DAT_R = 0xdec0adba` (src/debug.py line 7). -/
def ERROR_DAT_R : Nat := 0xdec0adba

/-- Master-to-slave signals of a classic Wishbone interface (litex
`wishbone.Interface` layout: adr, dat_w, sel, cyc, stb, we, cti, bte). -/
structure WbM2S where
  adr   : Nat
  dat_w : Nat
  sel   : Nat
  cyc   : Bool
  stb   : Bool
  we    : Bool
  cti   : Nat
  bte   : Nat
deriving DecidableEq, Repr

/-- Slave-to-master signals of a classic Wishbone interface (dat_r, ack, err). -/
structure WbS2M where
  dat_r : Nat
  ack   : Bool
  err   : Bool
deriving DecidableEq, Repr

/-- Value taken by undriven master-to-slave signals in a combinational block
(migen gives every undriven combinational signal its default, 0). -/
def WbM2S.zero : WbM2S := ⟨0, 0, 0, false, false, false, 0, 0⟩

/-- Value taken by undriven slave-to-master signals in a combinational block. -/
def WbS2M.zero : WbS2M := ⟨0, false, false⟩

/-- States of the `WishboneSoftControl` FSM (src/debug.py lines 42-79). -/
inductive SCState where
  | IDLE
  | WRITE
  | READ
deriving DecidableEq, Repr

/-- Registered state of `WishboneSoftControl`: the FSM state, the internal
`adr` and `data` latches (src/debug.py lines 39-40), and the two CSR storages
`self.data.storage` and `self.adr.storage` (lines 37-38), which the FSM can
also write. -/
structure SCRegs where
  state        : SCState
  adr          : Nat
  data         : Nat
  data_storage : Nat
  adr_storage  : Nat
deriving DecidableEq, Repr

/-- Per-cycle inputs of `WishboneSoftControl`: the CSR write pulses
`self.write.re` and `self.read.re`, and the Wishbone slave response. -/
structure SCIn where
  write_re : Bool
  read_re  : Bool
  ack      : Bool
  err      : Bool
  dat_r    : Nat
deriving DecidableEq, Repr

/-- Synchronous next-state function of `WishboneSoftControl` (src/debug.py
lines 42-79).  In the IDLE body the two `If` statements execute in program
order, so when both fire, assignments of the second (`read.re`) override those
of the first (`write.re`) on the signals both drive (migen last-assignment-wins
semantics): the state register becomes READ, while the `data` latch keeps the
value assigned by the write branch.  In READ, on `ack` with `err` the sentinel
is written to the internal `data` latch (line 73); without `err` the bus read
data is written to the `self.data.storage` CSR (line 75). -/
def softControlNext (s : SCRegs) (i : SCIn) : SCRegs :=
  match s.state with
  | SCState.IDLE =>
      let s1 := if i.write_re then
        { s with adr := s.adr_storage, data := s.data_storage, state := SCState.WRITE }
      else s
      if i.read_re then
        { s1 with adr := s1.adr_storage, state := SCState.READ }
      else s1
  | SCState.WRITE =>
      if i.ack then { s with state := SCState.IDLE } else s
  | SCState.READ =>
      if i.ack then
        if i.err then
          { s with data := ERROR_DAT_R, state := SCState.IDLE }
        else
          { s with data_storage := i.dat_r, state := SCState.IDLE }
      else s

/-- Combinational Wishbone master outputs of `WishboneSoftControl` in each FSM
state (src/debug.py lines 54-70); `sel_width = len(wb.sel)`; undriven signals
are 0. -/
def softControlOut (sel_width : Nat) (s : SCRegs) : WbM2S :=
  match s.state with
  | SCState.IDLE  => WbM2S.zero
  | SCState.WRITE => ⟨s.adr, s.data, 2 ^ sel_width - 1, true, true, true, 0, 0⟩
  | SCState.READ  => ⟨s.adr, 0, 2 ^ sel_width - 1, true, true, false, 0, 0⟩

/-- Reset value of the `soft_control` CSRStorage of `WishboneSoftInjector`
(src/debug.py line 85: `CSRStorage(reset=1)`). -/
def soft_control_reset : Nat := 1

/-- Combinational mux of `WishboneSoftInjector` (src/debug.py lines 86-94),
master-to-slave direction: the shared slave sees the CSR soft master when
`soft_control` is set, the hardware CPU master otherwise. -/
def injectorSlaveM2S (soft : Bool) (cpu csr : WbM2S) : WbM2S :=
  if soft then csr else cpu

/-- Combinational response seen by the hardware CPU master: when
`soft_control` is set the CPU is bypassed and sees `ERROR_DAT_R` as read data
with `ack = cyc & stb` (src/debug.py lines 89-90, `err` undriven hence 0);
otherwise it sees the real slave response. -/
def injectorCpuS2M (soft : Bool) (cpu : WbM2S) (slv : WbS2M) : WbS2M :=
  if soft then ⟨ERROR_DAT_R, cpu.cyc && cpu.stb, false⟩ else slv

/-- Combinational response seen by the CSR soft master: the real slave
response when `soft_control` is set, all-zero (undriven) otherwise. -/
def injectorCsrS2M (soft : Bool) (slv : WbS2M) : WbS2M :=
  if soft then slv else WbS2M.zero

/-- Reset value of the `limit` CSRStorage of `WishboneGuard`
(src/debug.py line 106: `CSRStorage(32, reset=100)`). -/
def guard_limit_reset : Nat := 100

/-- Synchronous update of the 32-bit `timeouts` counter of `WishboneGuard`
(src/debug.py lines 109-113): it increments (mod 2^32) whenever
`master.cyc & self.timeout` holds.  The `self.reset` CSR declared on line 107
is exposed here as `reset_re` to record that no statement of the module reads
it: the counter update does not depend on it. -/
def guardCount (timeouts : Nat) (reset_re cyc timeout : Bool) : Nat :=
  if cyc && timeout then (timeouts + 1) % 2 ^ 32 else timeouts

/-- Combinational gate condition of `WishboneGuard` (src/debug.py line 116):
the master is connected to the slave exactly while
`timeouts.status < limit.storage`. -/
def guardGateOpen (timeouts limit : Nat) : Bool :=
  timeouts < limit

/-- Master-to-slave signals forwarded by `WishboneGuard` (src/debug.py
lines 115-119): `master.connect(slave)` inside the `If`, all-zero defaults
when the gate is closed. -/
def guardSlaveM2S (timeouts limit : Nat) (master : WbM2S) : WbM2S :=
  if guardGateOpen timeouts limit then master else WbM2S.zero

/-- Slave-to-master signals forwarded by `WishboneGuard`: the slave response
reaches the master only while the gate is open. -/
def guardMasterS2M (timeouts limit : Nat) (slv : WbS2M) : WbS2M :=
  if guardGateOpen timeouts limit then slv else WbS2M.zero

/-- Default `l2_cache_min_data_width` of `FK33.add_l2_cache`
(src/fk33.py line 300). -/
def l2_cache_min_data_width : Nat := 128

/-- Effective L2 cache size computed by `FK33.add_l2_cache`
(src/fk33.py lines 304-307): the construction asserts
`wb_slave.data_width >= l2_cache_min_data_width` (modelled as `none`), then
takes `max(l2_cache_size, int(2*data_width/8))` and applies
`2**int(log2(...))`, i.e. rounds DOWN to a power of two
(`int` truncates the float logarithm), modelled with `Nat.log2`. -/
def add_l2_cache_size (l2_cache_size data_width : Nat) : Option Nat :=
  if data_width < l2_cache_min_data_width then none
  else some (2 ^ Nat.log2 (max l2_cache_size (2 * data_width / 8)))

/-- Burst-type parameter of `AXILite2AXI` (src/axil2axi.py lines 16-20). -/
inductive BurstType where
  | FIXED
  | INCR
  | WRAP
deriving DecidableEq, Repr

/-- Encoding of the burst-type parameter (src/axil2axi.py lines 16-20). -/
def BurstType.encode : BurstType → Nat
  | BurstType.FIXED => 0b00
  | BurstType.INCR  => 0b01
  | BurstType.WRAP  => 0b10

/-- Master-driven signals of an AXI-Lite interface (the inputs of the
`AXILite2AXI` adapter coming from the lite side). -/
structure AXILiteM where
  aw_valid : Bool
  aw_addr  : Nat
  w_valid  : Bool
  w_data   : Nat
  w_strb   : Nat
  b_ready  : Bool
  ar_valid : Bool
  ar_addr  : Nat
  r_ready  : Bool
deriving DecidableEq, Repr

/-- Slave-driven signals of the full AXI interface (the inputs of the
`AXILite2AXI` adapter coming from the AXI side). -/
structure AXIS2M where
  aw_ready : Bool
  w_ready  : Bool
  b_valid  : Bool
  b_resp   : Nat
  ar_ready : Bool
  r_valid  : Bool
  r_data   : Nat
  r_resp   : Nat
deriving DecidableEq, Repr

/-- Master-driven signals of the full AXI interface (the outputs of the
`AXILite2AXI` adapter towards the AXI slave). -/
structure AXIM2S where
  aw_valid : Bool
  aw_addr  : Nat
  aw_burst : Nat
  aw_len   : Nat
  aw_size  : Nat
  aw_lock  : Nat
  aw_prot  : Nat
  aw_cache : Nat
  aw_qos   : Nat
  aw_id    : Nat
  w_valid  : Bool
  w_data   : Nat
  w_strb   : Nat
  w_last   : Nat
  b_ready  : Bool
  ar_valid : Bool
  ar_addr  : Nat
  ar_burst : Nat
  ar_len   : Nat
  ar_size  : Nat
  ar_lock  : Nat
  ar_prot  : Nat
  ar_cache : Nat
  ar_qos   : Nat
  ar_id    : Nat
  r_ready  : Bool
deriving DecidableEq, Repr

/-- Signals driven back to the AXI-Lite master by the `AXILite2AXI` adapter. -/
structure AXILiteS2M where
  aw_ready : Bool
  w_ready  : Bool
  b_valid  : Bool
  b_resp   : Nat
  ar_ready : Bool
  r_valid  : Bool
  r_data   : Nat
  r_resp   : Nat
deriving DecidableEq, Repr

/-- Purely combinational body of `AXILite2AXI` (src/axil2axi.py lines 6-61):
`burst_size = log2_int(axi.data_width // 8)` and every `comb` assignment of
the class, as a pure function of the current-cycle inputs (the adapter holds
no internal state). -/
def AXILite2AXI (data_width write_id read_id : Nat) (burst_type : BurstType)
    (l : AXILiteM) (s : AXIS2M) : AXIM2S × AXILiteS2M :=
  (⟨l.aw_valid, l.aw_addr, burst_type.encode, 0, Nat.log2 (data_width / 8),
      0, 0, 0b0011, 0, write_id,
    l.w_valid, l.w_data, l.w_strb, 1,
    l.b_ready,
    l.ar_valid, l.ar_addr, burst_type.encode, 0, Nat.log2 (data_width / 8),
      0, 0, 0b0011, 0, read_id,
    l.r_ready⟩,
   ⟨s.aw_ready, s.w_ready, s.b_valid, s.b_resp,
    s.ar_ready, s.r_valid, s.r_data, s.r_resp⟩)

/-- litex `log2_int(n, need_pow2=False)`, i.e. the bit length of `n - 1`
(0 for `n ≤ 1`), the ceiling of the base-2 logarithm for `n ≥ 1`. -/
def ceil_log2 (n : Nat) : Nat :=
  if n ≤ 1 then 0 else Nat.log2 (n - 1) + 1

/-- Configuration retained by a successfully constructed
`WishbonePipelined2AXI` (src/wb2axi.py lines 82-96). -/
structure WishbonePipelined2AXI where
  axi_data_width    : Nat
  axi_address_width : Nat
  wb_data_width     : Nat
  wb_adr_width      : Nat
  base_address      : Nat
deriving DecidableEq, Repr

/-- Constructor of `WishbonePipelined2AXI` (src/wb2axi.py lines 83-93): the
three `assert` statements run at initialization time; any failure raises
before an instance exists (`none`).  They check, in order:
`axi.data_width >= wb.data_width`;
`axi.address_width == wb.adr_width + log2_int(wb.data_width, need_pow2=False) - 3`
(an `int` equality, hence stated over `Int`); and
`(axi.data_width // wb.data_width) in [1, 2, 4, 8, 16, 32]`, a check on the
FLOOR of the width ratio. -/
def mkWishbonePipelined2AXI (axi_dw axi_aw wb_dw wb_aw base : Nat) :
    Option WishbonePipelined2AXI :=
  if wb_dw ≤ axi_dw ∧
     (axi_aw : Int) = (wb_aw : Int) + (ceil_log2 wb_dw : Int) - 3 ∧
     axi_dw / wb_dw ∈ [1, 2, 4, 8, 16, 32] then
    some ⟨axi_dw, axi_aw, wb_dw, wb_aw, base⟩
  else none

/-- Request fields of a pipelined Wishbone master (src/wb2axi.py lines 7-18)
that `WishbonePipelined2AXI` feeds to the `wbm2axisp` core. -/
structure WBPipeReq where
  adr   : Nat
  dat_w : Nat
  sel   : Nat
  cyc   : Bool
  stb   : Bool
  we    : Bool
deriving DecidableEq, Repr

/-- Two's-complement subtraction of migen on a `w`-bit signal:
`a - b` reduced modulo `2 ^ w`. -/
def migen_sub (w a b : Nat) : Nat :=
  (a + (2 ^ w - b % 2 ^ w)) % 2 ^ w

/-- Request presented by `WishbonePipelined2AXI` to the downstream `wbm2axisp`
core (src/wb2axi.py lines 95-96 and 154-159): the address is
`wb.adr - base_address` on a signal of the simple bus's address width
(`Signal.like(wb.adr)`), every other field is wired through unchanged. -/
def wbm2axisp_req (wb_aw base : Nat) (r : WBPipeReq) : WBPipeReq :=
  { r with adr := migen_sub wb_aw r.adr base }

/-- Evaluation helper: `Nat.log2 n = k` from the characterizing bounds. -/
theorem log2_eval {n k : Nat} (h1 : 2 ^ k ≤ n) (h2 : n < 2 ^ (k + 1)) :
    Nat.log2 n = k := by
  rw [Nat.log2_eq_log_two]
  exact Nat.log_eq_of_pow_le_of_lt_pow h1 h2

/-- C1: the claim requires that an explicit reset clears `violation_count`
back to 0 and reopens the gate, but the `reset` CSR of `WishboneGuard`
(src/debug.py line 107) is never read by any statement of the module.  With
`limit = 2`, two timeout events bring the counter to 2 and close the gate; a
subsequent reset pulse leaves the counter at 2 and the gate closed, and in
general the counter update is independent of the reset pulse. -/
theorem wishboneGuard_reset_unconnected :
    guardCount (guardCount 0 false true true) false true true = 2 ∧
    guardGateOpen 2 2 = false ∧
    guardMasterS2M 2 2 ⟨0xABCD, true, false⟩ = WbS2M.zero ∧
    guardCount 2 true false false = 2 ∧
    guardGateOpen (guardCount 2 true false false) 2 = false ∧
    (∀ (n : Nat) (r c t : Bool), guardCount n r c t = guardCount n false c t) :=
  ⟨rfl, rfl, rfl, rfl, rfl, fun _ _ _ _ => rfl⟩

/-- C10: the gate condition of `WishboneGuard` is the strict comparison
`timeouts < limit` against the runtime-writable `limit` register (reset value
100); the counter keeps incrementing on timeout events regardless of the gate
state; and whenever the counter is strictly below a (newly written) limit the
gate is open and passes both directions through unchanged, with no counter
reset involved. -/
theorem wishboneGuard_strict_gate_runaway_counter :
    guard_limit_reset = 100 ∧
    (∀ n l : Nat, guardGateOpen n l = true ↔ n < l) ∧
    (∀ (n : Nat) (r : Bool), guardCount n r true true = (n + 1) % 2 ^ 32) ∧
    (∀ (n newLimit : Nat) (m : WbM2S) (s : WbS2M), n < newLimit →
      guardGateOpen n newLimit = true ∧ guardSlaveM2S n newLimit m = m ∧
      guardMasterS2M n newLimit s = s) := by
  refine ⟨rfl, fun n l => by simp [guardGateOpen], fun n r => rfl, ?_⟩
  intro n newLimit m s h
  have hg : guardGateOpen n newLimit = true := by simp [guardGateOpen, h]
  exact ⟨hg, by simp [guardSlaveM2S, hg], by simp [guardMasterS2M, hg]⟩

/-- Witness for C10 at `count = 150`, `limit = 151`. -/
theorem wishboneGuard_strict_gate_runaway_counter_witness :
    guardGateOpen 150 151 = true ∧
    guardSlaveM2S 150 151 ⟨1, 2, 3, true, true, false, 0, 0⟩ =
      ⟨1, 2, 3, true, true, false, 0, 0⟩ ∧
    guardMasterS2M 150 151 ⟨7, true, false⟩ = ⟨7, true, false⟩ :=
  wishboneGuard_strict_gate_runaway_counter.2.2.2 150 151
    ⟨1, 2, 3, true, true, false, 0, 0⟩ ⟨7, true, false⟩ (by decide)

/-- C2: in the READ state of `WishboneSoftControl`, on `ack` with `err` the
sentinel `ERROR_DAT_R` is written to the internal `data` latch
(src/debug.py line 73), NOT to the software-visible `self.data.storage` CSR,
which keeps its previous value; the no-error branch does update the CSR
storage with the bus read data.  This contradicts the claim that the CSR
storage read back by software is updated to the sentinel. -/
theorem wishboneSoftControl_read_error_keeps_storage :
    softControlNext ⟨SCState.READ, 0x200, 0, 0x11111111, 0x200⟩
        ⟨false, false, true, true, 0x5555⟩ =
      ⟨SCState.IDLE, 0x200, ERROR_DAT_R, 0x11111111, 0x200⟩ ∧
    (0x11111111 : Nat) ≠ ERROR_DAT_R ∧
    softControlNext ⟨SCState.READ, 0x200, 0, 0x11111111, 0x200⟩
        ⟨false, false, true, false, 0x5555⟩ =
      ⟨SCState.IDLE, 0x200, 0, 0x5555, 0x200⟩ :=
  ⟨rfl, by decide, rfl⟩

/-- C6 counterexample: in IDLE with a write-issue and a read-issue pulse in
the same cycle, `WishboneSoftControl` transitions to READ, not WRITE (the
second `If` body's `NextState` overrides the first's). -/
theorem softControl_both_pulses_cex :
    (softControlNext ⟨SCState.IDLE, 0, 0, 0xD1, 0xA1⟩
        ⟨true, true, false, false, 0⟩).state = SCState.READ ∧
    SCState.READ ≠ SCState.WRITE :=
  ⟨rfl, by decide⟩

/-- C6 amended: in IDLE, a write-issue pulse alone latches address and data
and goes to WRITE; a read-issue pulse alone latches the address and goes to
READ; when both pulses coincide the READ transition wins (the later `If`
block's assignment to the state register overrides the earlier one), with the
data latch still loaded from the write branch. -/
theorem softControl_idle_transitions (s : SCRegs) (i : SCIn)
    (h : s.state = SCState.IDLE) :
    (i.write_re = true → i.read_re = true →
      softControlNext s i =
        { s with state := SCState.READ, adr := s.adr_storage,
                 data := s.data_storage }) ∧
    (i.write_re = true → i.read_re = false →
      softControlNext s i =
        { s with state := SCState.WRITE, adr := s.adr_storage,
                 data := s.data_storage }) ∧
    (i.write_re = false → i.read_re = true →
      softControlNext s i = { s with state := SCState.READ,
                                     adr := s.adr_storage }) ∧
    (i.write_re = false → i.read_re = false → softControlNext s i = s) := by
  rcases s with ⟨st, a, d, ds, asr⟩
  cases h
  rcases i with ⟨w, r, ak, er, dr⟩
  cases w <;> cases r <;> simp [softControlNext]

/-- Witness for C6 at a concrete IDLE state with both pulses asserted. -/
theorem softControl_idle_transitions_witness :
    softControlNext ⟨SCState.IDLE, 0, 0, 7, 9⟩ ⟨true, true, false, false, 0⟩ =
      ⟨SCState.READ, 9, 7, 7, 9⟩ :=
  (softControl_idle_transitions ⟨SCState.IDLE, 0, 0, 7, 9⟩
    ⟨true, true, false, false, 0⟩ rfl).1 rfl rfl

/-- C7: the `WishboneSoftInjector` mux is purely combinational; with
`soft_control = 1` the CSR soft master is connected to the shared slave and
the bypassed CPU master sees `ERROR_DAT_R` read data with an immediate
acknowledge `cyc & stb`; with `soft_control = 0` the CPU master is connected
to the slave instead. -/
theorem wishboneSoftInjector_mux_behavior (cpu csr : WbM2S) (slv : WbS2M) :
    injectorSlaveM2S true cpu csr = csr ∧
    (injectorCpuS2M true cpu slv).dat_r = ERROR_DAT_R ∧
    (injectorCpuS2M true cpu slv).ack = (cpu.cyc && cpu.stb) ∧
    injectorCsrS2M true slv = slv ∧
    injectorSlaveM2S false cpu csr = cpu ∧
    injectorCpuS2M false cpu slv = slv :=
  ⟨rfl, rfl, rfl, rfl, rfl, rfl⟩

/-- C9: the `soft_control` CSRStorage resets to 1, so out of reset the
injector is in software-controlled mode: the CSR soft master drives the
shared slave and the bypassed CPU master sees the sentinel read data with an
immediate acknowledge. -/
theorem wishboneSoftInjector_reset_soft_mode (cpu csr : WbM2S) (slv : WbS2M) :
    soft_control_reset = 1 ∧
    injectorSlaveM2S (decide (soft_control_reset ≠ 0)) cpu csr = csr ∧
    (injectorCpuS2M (decide (soft_control_reset ≠ 0)) cpu slv).dat_r =
      ERROR_DAT_R ∧
    (injectorCpuS2M (decide (soft_control_reset ≠ 0)) cpu slv).ack =
      (cpu.cyc && cpu.stb) :=
  ⟨rfl, rfl, rfl, rfl⟩

/-- C3 counterexample: for requested size 33 with slave data width 128 the
code yields 32, which is below the requested size, so the size is not the
requested size rounded UP to the next power of two (`2**int(log2(33)) = 32`:
the code rounds down). -/
theorem add_l2_cache_size_rounds_down_cex :
    add_l2_cache_size 33 128 = some 32 ∧ 32 < 33 := by
  have h : Nat.log2 33 = 5 := log2_eval (by norm_num) (by norm_num)
  have hmax : max (33 : Nat) (2 * 128 / 8) = 33 := rfl
  constructor
  · simp only [add_l2_cache_size, l2_cache_min_data_width, hmax, h]
    norm_num
  · norm_num

/-- C3 amended: for data width `W ≥ 128` (the asserted minimum), the effective
L2 cache size is `max(S, 2*W/8)` rounded DOWN to a power of two: it is a
power of two, at most `max(S, 2*W/8)`, more than half of it, and whenever
`2*W/8` is itself a power of two (every power-of-two bus width) the result is
still at least `2*W/8`. -/
theorem add_l2_cache_size_floor_pow2 (S W r : Nat)
    (hW : l2_cache_min_data_width ≤ W)
    (hr : add_l2_cache_size S W = some r) :
    (∃ k, r = 2 ^ k) ∧
    r ≤ max S (2 * W / 8) ∧
    max S (2 * W / 8) < 2 * r ∧
    (∀ j, 2 * W / 8 = 2 ^ j → 2 * W / 8 ≤ r) := by
  have hcond : ¬ W < l2_cache_min_data_width := not_lt.mpr hW
  rw [add_l2_cache_size, if_neg hcond, Option.some.injEq] at hr
  subst hr
  set M := max S (2 * W / 8) with hM
  have hW32 : 32 ≤ 2 * W / 8 := by
    have : 2 * 128 ≤ 2 * W := by
      have : (128 : Nat) ≤ W := hW
      omega
    calc (32 : Nat) = 2 * 128 / 8 := by norm_num
    _ ≤ 2 * W / 8 := Nat.div_le_div_right this
  have hM0 : M ≠ 0 := by
    have : 32 ≤ M := le_trans hW32 (le_max_right _ _)
    omega
  refine ⟨⟨Nat.log2 M, rfl⟩, ?_, ?_, ?_⟩
  · rw [Nat.log2_eq_log_two]
    exact Nat.pow_log_le_self 2 hM0
  · rw [Nat.log2_eq_log_two]
    have := Nat.lt_pow_succ_log_self (b := 2) (by norm_num) M
    calc M < 2 ^ (Nat.log 2 M).succ := this
    _ = 2 * 2 ^ Nat.log 2 M := by rw [pow_succ]; ring
  · intro j hj
    have hjM : 2 ^ j ≤ M := hj ▸ le_max_right _ _
    have hlog : j ≤ Nat.log 2 M := by
      have := Nat.log_mono_right (b := 2) hjM
      rwa [Nat.log_pow (by norm_num)] at this
    calc 2 * W / 8 = 2 ^ j := hj
    _ ≤ 2 ^ Nat.log 2 M := Nat.pow_le_pow_right (by norm_num) hlog
    _ = 2 ^ Nat.log2 M := by rw [Nat.log2_eq_log_two]

/-- Witness for C3 at requested size 8192, data width 128. -/
theorem add_l2_cache_size_floor_pow2_witness :
    add_l2_cache_size 8192 128 = some 8192 ∧
    ((∃ k, (8192 : Nat) = 2 ^ k) ∧
     8192 ≤ max 8192 (2 * 128 / 8) ∧
     max 8192 (2 * 128 / 8) < 2 * 8192 ∧
     (∀ j, 2 * 128 / 8 = 2 ^ j → 2 * 128 / 8 ≤ 8192)) := by
  have h : Nat.log2 8192 = 13 := log2_eval (by norm_num) (by norm_num)
  have hmax : max (8192 : Nat) (2 * 128 / 8) = 8192 := rfl
  have he : add_l2_cache_size 8192 128 = some 8192 := by
    simp only [add_l2_cache_size, l2_cache_min_data_width, hmax, h]
    norm_num
  exact ⟨he, add_l2_cache_size_floor_pow2 8192 128 8192 le_rfl he⟩

/-- C4: the `AXILite2AXI` adapter is a stateless combinational pass-through:
addresses, write data, write strobe, read data and responses are bit-identical
on both sides; burst length is always 0 (single beat), burst size is always
`log2(data_width/8)`, cache is `0b0011`, lock/prot/qos are 0, `w.last` is 1,
the write-channel ID is the configured `write_id` and the read-channel ID the
configured `read_id`; all valid/ready handshakes pass through unmodified in
both directions. -/
theorem axiLite2AXI_fidelity (data_width write_id read_id : Nat)
    (bt : BurstType) (l : AXILiteM) (s : AXIS2M) :
    (AXILite2AXI data_width write_id read_id bt l s).1.aw_addr = l.aw_addr ∧
    (AXILite2AXI data_width write_id read_id bt l s).1.w_data = l.w_data ∧
    (AXILite2AXI data_width write_id read_id bt l s).1.w_strb = l.w_strb ∧
    (AXILite2AXI data_width write_id read_id bt l s).1.ar_addr = l.ar_addr ∧
    (AXILite2AXI data_width write_id read_id bt l s).2.r_data = s.r_data ∧
    (AXILite2AXI data_width write_id read_id bt l s).2.r_resp = s.r_resp ∧
    (AXILite2AXI data_width write_id read_id bt l s).2.b_resp = s.b_resp ∧
    (AXILite2AXI data_width write_id read_id bt l s).1.aw_len = 0 ∧
    (AXILite2AXI data_width write_id read_id bt l s).1.ar_len = 0 ∧
    (AXILite2AXI data_width write_id read_id bt l s).1.aw_size =
      Nat.log2 (data_width / 8) ∧
    (AXILite2AXI data_width write_id read_id bt l s).1.ar_size =
      Nat.log2 (data_width / 8) ∧
    (AXILite2AXI data_width write_id read_id bt l s).1.aw_burst = bt.encode ∧
    (AXILite2AXI data_width write_id read_id bt l s).1.ar_burst = bt.encode ∧
    (AXILite2AXI data_width write_id read_id bt l s).1.aw_cache = 0b0011 ∧
    (AXILite2AXI data_width write_id read_id bt l s).1.ar_cache = 0b0011 ∧
    (AXILite2AXI data_width write_id read_id bt l s).1.aw_lock = 0 ∧
    (AXILite2AXI data_width write_id read_id bt l s).1.aw_prot = 0 ∧
    (AXILite2AXI data_width write_id read_id bt l s).1.aw_qos = 0 ∧
    (AXILite2AXI data_width write_id read_id bt l s).1.ar_lock = 0 ∧
    (AXILite2AXI data_width write_id read_id bt l s).1.ar_prot = 0 ∧
    (AXILite2AXI data_width write_id read_id bt l s).1.ar_qos = 0 ∧
    (AXILite2AXI data_width write_id read_id bt l s).1.w_last = 1 ∧
    (AXILite2AXI data_width write_id read_id bt l s).1.aw_id = write_id ∧
    (AXILite2AXI data_width write_id read_id bt l s).1.ar_id = read_id ∧
    (AXILite2AXI data_width write_id read_id bt l s).1.aw_valid = l.aw_valid ∧
    (AXILite2AXI data_width write_id read_id bt l s).2.aw_ready = s.aw_ready ∧
    (AXILite2AXI data_width write_id read_id bt l s).1.w_valid = l.w_valid ∧
    (AXILite2AXI data_width write_id read_id bt l s).2.w_ready = s.w_ready ∧
    (AXILite2AXI data_width write_id read_id bt l s).2.b_valid = s.b_valid ∧
    (AXILite2AXI data_width write_id read_id bt l s).1.b_ready = l.b_ready ∧
    (AXILite2AXI data_width write_id read_id bt l s).1.ar_valid = l.ar_valid ∧
    (AXILite2AXI data_width write_id read_id bt l s).2.ar_ready = s.ar_ready ∧
    (AXILite2AXI data_width write_id read_id bt l s).2.r_valid = s.r_valid ∧
    (AXILite2AXI data_width write_id read_id bt l s).1.r_ready = l.r_ready := by
  repeat' apply And.intro
  all_goals rfl

/-- C5 counterexample: with burst-bus data width 48 and simple-bus data width
32 (ratio 3/2, not a power of two and not in {1,2,4,8,16,32}) and matching
address widths (30 + ceil_log2(32) - 3 = 32), construction SUCCEEDS, because
the code checks the floor `48 // 32 = 1`, which is in the list. -/
theorem wishbonePipelined2AXI_nonpow2_ratio_cex :
    (mkWishbonePipelined2AXI 48 32 32 30 0).isSome = true ∧
    ¬ (∃ k ∈ [1, 2, 4, 8, 16, 32], (48 : Nat) = k * 32) := by
  have h31 : Nat.log2 31 = 4 := log2_eval (by norm_num) (by norm_num)
  have hc : ceil_log2 32 = 5 := by norm_num [ceil_log2, h31]
  constructor
  · simp only [mkWishbonePipelined2AXI, hc]
    decide
  · decide

/-- C5 amended: construction of `WishbonePipelined2AXI` succeeds iff the
burst-bus data width is at least the simple-bus data width, the burst-bus
address width equals the simple-bus address width plus
`log2_int(simple data width, need_pow2=False)` minus 3, and the FLOOR of the
data-width ratio lies in {1, 2, 4, 8, 16, 32} (exact divisibility is not
checked); in particular every exact power-of-two-ratio configuration with the
matching address width is accepted. -/
theorem wishbonePipelined2AXI_check_iff (axi_dw axi_aw wb_dw wb_aw base : Nat) :
    ((mkWishbonePipelined2AXI axi_dw axi_aw wb_dw wb_aw base).isSome = true ↔
      (wb_dw ≤ axi_dw ∧
       (axi_aw : Int) = (wb_aw : Int) + (ceil_log2 wb_dw : Int) - 3 ∧
       axi_dw / wb_dw ∈ [1, 2, 4, 8, 16, 32])) ∧
    (∀ k ∈ [1, 2, 4, 8, 16, 32], 0 < wb_dw → axi_dw = k * wb_dw →
      (axi_aw : Int) = (wb_aw : Int) + (ceil_log2 wb_dw : Int) - 3 →
      (mkWishbonePipelined2AXI axi_dw axi_aw wb_dw wb_aw base).isSome = true) := by
  constructor
  · simp only [mkWishbonePipelined2AXI]
    split
    · rename_i h
      simp [h]
    · rename_i h
      exact iff_of_false (by simp) h
  · intro k hk hpos heq haddr
    have hk1 : 1 ≤ k := by
      have hk' := hk
      fin_cases hk' <;> norm_num
    have hdiv : axi_dw / wb_dw = k := by
      rw [heq]
      exact Nat.mul_div_left k hpos
    have hle : wb_dw ≤ axi_dw := by
      rw [heq]
      calc wb_dw = 1 * wb_dw := (one_mul _).symm
      _ ≤ k * wb_dw := Nat.mul_le_mul_right _ hk1
    rw [mkWishbonePipelined2AXI, if_pos ⟨hle, haddr, hdiv ▸ hk⟩]
    rfl

/-- Witness for C5: the conforming configuration axi_dw = 32, wb_dw = 32
(ratio 1), wb_aw = 30, axi_aw = 30 + 5 - 3 = 32 is accepted. -/
theorem wishbonePipelined2AXI_check_iff_witness :
    (mkWishbonePipelined2AXI 32 32 32 30 0).isSome = true := by
  have h31 : Nat.log2 31 = 4 := log2_eval (by norm_num) (by norm_num)
  have hc : ceil_log2 32 = 5 := by norm_num [ceil_log2, h31]
  exact (wishbonePipelined2AXI_check_iff 32 32 32 30 0).2 1 (by decide)
    (by norm_num) (by norm_num) (by rw [hc]; norm_num)

/-- C8: the address handed by `WishbonePipelined2AXI` to the downstream
`wbm2axisp` core is the incoming simple-bus address minus `base_address`,
reduced modulo `2 ^ adr_width` (the subtraction happens on a signal of the
simple bus's address width); data, byte select, write enable, cycle and
strobe are passed through unchanged. -/
theorem wishbonePipelined2AXI_address_translation (wb_aw base : Nat)
    (r : WBPipeReq) :
    ((wbm2axisp_req wb_aw base r).adr : Int) % 2 ^ wb_aw =
      ((r.adr : Int) - (base : Int)) % 2 ^ wb_aw ∧
    (wbm2axisp_req wb_aw base r).adr < 2 ^ wb_aw ∧
    (wbm2axisp_req wb_aw base r).dat_w = r.dat_w ∧
    (wbm2axisp_req wb_aw base r).sel = r.sel ∧
    (wbm2axisp_req wb_aw base r).cyc = r.cyc ∧
    (wbm2axisp_req wb_aw base r).stb = r.stb ∧
    (wbm2axisp_req wb_aw base r).we = r.we := by
  have hm : 0 < 2 ^ wb_aw := pow_pos (by norm_num) wb_aw
  refine ⟨?_, ?_, rfl, rfl, rfl, rfl, rfl⟩
  · show ((migen_sub wb_aw r.adr base : Nat) : Int) % 2 ^ wb_aw = _
    have hble : base % 2 ^ wb_aw ≤ 2 ^ wb_aw := (Nat.mod_lt _ hm).le
    unfold migen_sub
    push_cast [hble]
    have hsplit : ((r.adr : Int) + ((2 : Int) ^ wb_aw - (base : Int) % 2 ^ wb_aw))
        = ((r.adr : Int) - (base : Int) % 2 ^ wb_aw) + 2 ^ wb_aw * 1 := by ring
    rw [hsplit, Int.add_mul_emod_self_left]
    conv_rhs => rw [Int.sub_emod]
    rw [Int.sub_emod]
    have hbb : ((base : Int) % 2 ^ wb_aw) % 2 ^ wb_aw = (base : Int) % 2 ^ wb_aw :=
      Int.emod_emod_of_dvd _ dvd_rfl
    rw [hbb]
    exact Int.emod_emod_of_dvd _ dvd_rfl
  · show migen_sub wb_aw r.adr base < 2 ^ wb_aw
    unfold migen_sub
    exact Nat.mod_lt _ hm
